import Mathlib

/-
Shallow embedding of `src/main.py` (class `HTTPDirectoryDownloader` of the
http-index-downloader repository) together with theorems about its
freshness evaluation, transfer engine, worker loop, crawl de-duplication
and exit-status derivation.

Modelling conventions:
  * The local filesystem is an association list from path to byte content
    (bytes as `Nat`), plus the list of created directories.
  * The HTTP transport, the HTML link extractor, the hash functions and the
    local-file modification times are external collaborators; they are
    supplied through an `Env` record.  `head url = none` models any
    exception raised inside a metadata probe (all of which the source
    catches with a blanket `except`).
  * `requests.exceptions.RequestException` during a transfer is modelled by
    `GetOutcome.netFail` (failure at request / `raise_for_status` time) and
    `GetOutcome.respMidFail` (failure during `iter_content`, after some
    bytes were written).  An HTTP status of 400 or above makes
    `raise_for_status` raise, which the source catches.
  * `OSError` from `os.makedirs` or `open`/`write` is NOT caught by the
    source (its `except` clause only catches `RequestException`); it is
    modelled by the `Except OsError` monad so that an uncaught exception is
    visible as an `Except.error` escaping `download_file`.
  * Worker threads update the shared counters under a lock; the claims
    under study are about per-task counter updates, so tasks are modelled
    as processed sequentially (`run_tasks` folds the worker step).
  * Timestamps are rationals (seconds), mirroring `total_seconds()`.
-/

namespace HttpIndexDownloader

/-- Local filesystem: regular files as an association list from path to
byte content, plus the list of directories that have been created. -/
structure FileSys where
  files : List (String × List Nat)
  dirs : List String
deriving DecidableEq

/-- Association-list lookup; the most recently written binding wins. -/
def lookup : List (String × List Nat) → String → Option (List Nat)
  | [], _ => none
  | kv :: rest, key => if kv.1 = key then some kv.2 else lookup rest key

/-- Run statistics and shared mutable state of one `HTTPDirectoryDownloader`
run: the four counters, the visited-URL set, the download queue and the
filesystem (`__init__`, lines 56-64 of `src/main.py`). -/
structure St where
  downloaded_files : Nat
  skipped_files : Nat
  failed_files : Nat
  total_files : Nat
  processed_urls : List String
  file_queue : List (String × String)
  fs : FileSys
deriving DecidableEq

/-- The `--existing` choices accepted by `argparse` (line 477). -/
inductive ExistingAction where
  | skip
  | overwrite
  | backup
deriving DecidableEq

/-- Downloader configuration: `update_only`, `use_checksum`,
`existing_action` (constructor arguments, lines 52-54). -/
structure Config where
  update_only : Bool
  use_checksum : Bool
  existing_action : ExistingAction

/-- Headers of a successful HEAD probe. -/
structure HeadResp where
  lastModified : Option Rat
  etag : Option String
  contentMD5 : Option String

/-- Outcome of a streaming GET for one file, as seen by `download_file`:
a response (status, `Content-Length`, body bytes), a response whose body
stream fails after `written` bytes were yielded, or a failure at request /
`raise_for_status` time. -/
inductive GetOutcome where
  | resp (status : Nat) (contentLength : Option Nat) (body : List Nat)
  | respMidFail (status : Nat) (contentLength : Option Nat) (written : List Nat)
  | netFail

/-- External collaborators: the HTTP session (HEAD and GET), the link
extractor over fetched index pages, the hash functions, local modification
times, and which filesystem operations raise `OSError`. -/
structure Env where
  head : String → Option HeadResp
  get : String → GetOutcome
  extract : String → List String × List String
  sha256 : List Nat → List Nat
  md5 : List Nat → List Nat
  mtime : String → Rat
  mkdirFail : String → Bool
  writeFail : String → Bool

/-- Write (or overwrite) a file: `open(path, "w"/"wb")` then write. -/
def setFileSt (st : St) (p : String) (c : List Nat) : St :=
  { st with fs := { st.fs with files := (p, c) :: st.fs.files } }

/-- Delete a file: `os.remove(path)`. -/
def removeFileSt (st : St) (p : String) : St :=
  { st with fs := { st.fs with files := st.fs.files.filter (fun kv => kv.1 != p) } }

/-- Create a directory: `os.makedirs(path, exist_ok=True)`. -/
def addDirSt (st : St) (d : String) : St :=
  { st with fs := { st.fs with dirs := d :: st.fs.dirs } }

/-- Decode a byte list as text (used for the `.etag` sidecar round trip). -/
def strOfBytes (bs : List Nat) : String := String.mk (bs.map Char.ofNat)

/-- Encode text as bytes. -/
def bytesOfStr (s : String) : List Nat := s.data.map Char.toNat

/-- One lower-case hexadecimal digit. -/
def hexDigit (n : Nat) : Char :=
  if n < 10 then Char.ofNat (48 + n) else Char.ofNat (87 + n)

/-- Lower-case hex rendering of a byte list, two digits per byte: Python's
`bytes.hex()` and `hashlib.sha256(...).hexdigest()` both produce this. -/
def hexOfBytes : List Nat → String
  | [] => ""
  | b :: bs => String.mk [hexDigit (b / 16 % 16), hexDigit (b % 16)] ++ hexOfBytes bs

/-- Value of one base64 alphabet character (`=` and anything else: none). -/
def b64Val (c : Char) : Option Nat :=
  if 65 ≤ c.toNat ∧ c.toNat ≤ 90 then some (c.toNat - 65)
  else if 97 ≤ c.toNat ∧ c.toNat ≤ 122 then some (c.toNat - 71)
  else if 48 ≤ c.toNat ∧ c.toNat ≤ 57 then some (c.toNat + 4)
  else if c.toNat = 43 then some 62
  else if c.toNat = 47 then some 63
  else none

/-- Reassemble 6-bit groups into bytes. -/
def b64Group : List Nat → List Nat
  | a :: b :: c :: d :: rest =>
      (a * 4 + b / 16) :: ((b % 16) * 16 + c / 4) :: ((c % 4) * 64 + d) :: b64Group rest
  | [a, b, c] => [a * 4 + b / 16, (b % 16) * 16 + c / 4]
  | [a, b] => [a * 4 + b / 16]
  | _ => []

/-- Python's `base64.b64decode` on a padded base64 string. -/
def b64decode (s : String) : List Nat := b64Group (s.data.filterMap b64Val)

/-- Python's `os.path.dirname` for forward-slash paths. -/
def dirname (p : String) : String :=
  String.intercalate "/" (p.splitOn "/").dropLast

/-- Python's `url.endswith("/")`: the last character is a slash. -/
def ends_with_slash (u : String) : Bool :=
  decide (u.data.getLast? = some '/')

/-- Python's `str.strip()`: drop whitespace from both ends. -/
def pyStrip (s : String) : String :=
  String.mk (((s.data.dropWhile Char.isWhitespace).reverse.dropWhile Char.isWhitespace).reverse)

/-- Embeds `get_file_checksum` (lines 165-175): SHA-256 hex digest of the
local file's content, `none` when reading the file fails. -/
def get_file_checksum (env : Env) (st : St) (p : String) : Option String :=
  match lookup st.fs.files p with
  | none => none
  | some c => some (hexOfBytes (env.sha256 c))

/-- Embeds `is_file_updated` (lines 141-163): `true` means the remote file
counts as updated (download proceeds).  A probe failure or a missing
`Last-Modified` header yields `true`; otherwise the remote timestamp must
exceed the local modification time by strictly more than 1 second. -/
def is_file_updated (env : Env) (url local_path : String) : Bool :=
  match env.head url with
  | none => true
  | some r =>
    match r.lastModified with
    | none => true
    | some remote_time => decide (remote_time - env.mtime local_path > 1)

/-- Truthiness test `if local_etag and local_etag == remote_etag`
(line 195): a present, non-empty, equal sidecar value. -/
def etag_matches (local_etag : Option String) (remote_etag : String) : Bool :=
  match local_etag with
  | some s => s != "" && s == remote_etag
  | none => false

/-- Embeds `is_file_changed` (lines 177-220).  Returns whether the file
counts as changed, together with the possibly updated state (the function
writes the `<local_path>.etag` sidecar).  A non-empty `ETag` header is
preferred: on a sidecar match the file is unchanged, otherwise the new tag
is persisted and the file counts as changed.  With no `ETag` but a
non-empty `Content-MD5`, the local SHA-256 hex digest is compared against
the base64-decoded header rendered as hex.  No signal, or any probe
failure, counts as changed. -/
def is_file_changed (env : Env) (url local_path : String) (st : St) : Bool × St :=
  match env.head url with
  | none => (true, st)
  | some r =>
    let remote_etag := r.etag.getD ""
    let remote_md5 := r.contentMD5.getD ""
    if remote_etag ≠ "" then
      let etag_file := local_path ++ ".etag"
      let local_etag := (lookup st.fs.files etag_file).map (fun bs => pyStrip (strOfBytes bs))
      if etag_matches local_etag remote_etag then (false, st)
      else if env.writeFail etag_file = true then (true, st)
      else (true, setFileSt st etag_file (bytesOfStr remote_etag))
    else if remote_md5 ≠ "" then
      match get_file_checksum env st local_path with
      | none => (true, st)
      | some local_checksum =>
          (decide (local_checksum ≠ hexOfBytes (b64decode remote_md5)), st)
    else (true, st)

/-- The `while os.path.exists(backup_path)` loop of `backup_file`
(lines 225-229), with fuel bounding the search; the first candidate is
`p ++ ".bak"`, then `p ++ ".bak.1"`, `p ++ ".bak.2"`, and so on.  Any fuel
exceeding the number of files suffices for the search to end at a free
name. -/
def backup_name : Nat → FileSys → String → Nat → String → String
  | 0, _, _, _, cand => cand
  | fuel+1, fs, p, counter, cand =>
    if lookup fs.files cand = none then cand
    else backup_name fuel fs p (counter + 1) (p ++ ".bak." ++ toString counter)

/-- Embeds `backup_file` (lines 222-236): copy the existing file to a
non-colliding `.bak` name.  A copy failure (missing source) is caught
inside the function and leaves the state unchanged. -/
def backup_file (st : St) (p : String) : St :=
  match lookup st.fs.files p with
  | none => st
  | some c => setFileSt st (backup_name (st.fs.files.length + 1) st.fs p 1 (p ++ ".bak")) c

/-- Embeds `should_skip_existing` (lines 238-266).  Returns whether the
existing file is skipped, together with the possibly updated state (backup
copies, `.etag` sidecar writes). -/
def should_skip_existing (env : Env) (cfg : Config) (url local_path : String) (st : St) :
    Bool × St :=
  if lookup st.fs.files local_path = none then (false, st)
  else if cfg.existing_action = ExistingAction.backup then (false, backup_file st local_path)
  else if cfg.existing_action = ExistingAction.skip then (true, st)
  else if cfg.update_only || cfg.use_checksum then
    if cfg.use_checksum then
      let pr := is_file_changed env url local_path st
      if pr.1 = false then (true, pr.2) else (false, pr.2)
    else
      if is_file_updated env url local_path = false then (true, st) else (false, st)
  else (false, st)

/-- An `OSError` escaping `download_file` (only `RequestException` is
caught there): raised by `os.makedirs` or by `open`/`write`. -/
inductive OsError where
  | mkdirFail
  | writeFail
deriving DecidableEq

/-- The cleanup in `download_file`'s `except` clause (lines 332-333):
delete the local file exactly when it is present with zero bytes. -/
def cleanup_zero (st : St) (p : String) : St :=
  match lookup st.fs.files p with
  | some [] => removeFileSt st p
  | some (_ :: _) => st
  | none => st

/-- Embeds `download_file` (lines 268-334).  A skipped task increments the
skipped counter and returns `true`.  Otherwise: a nonzero pre-existing
file triggers a range request (`resume`); a 206 status with resume appends,
anything else truncates and rewrites; the expected total size is the
declared `Content-Length` plus the pre-existing size; a `RequestException`
is caught and yields `false` after deleting a zero-byte local file; an
`OSError` from `makedirs` or `open`/`write` escapes as `Except.error`. -/
def download_file (env : Env) (cfg : Config) (url local_path : String) (st : St) :
    Except OsError (Bool × St) :=
  let pr := should_skip_existing env cfg url local_path st
  if pr.1 then Except.ok (true, { pr.2 with skipped_files := pr.2.skipped_files + 1 })
  else
    let st1 := pr.2
    let file_size := ((lookup st1.fs.files local_path).map List.length).getD 0
    let resume := decide (0 < file_size)
    match env.get url with
    | GetOutcome.netFail => Except.ok (false, cleanup_zero st1 local_path)
    | GetOutcome.resp status content_length body =>
      if 400 ≤ status then Except.ok (false, cleanup_zero st1 local_path)
      else
        let mode_append := resume && (status == 206)
        let total_size := match content_length with
          | some n => n + file_size
          | none => 0
        if env.mkdirFail (dirname local_path) = true then Except.error OsError.mkdirFail
        else if env.writeFail local_path = true then Except.error OsError.writeFail
        else
          let old := (lookup st1.fs.files local_path).getD []
          let new_content := if mode_append then old ++ body else body
          let st2 := setFileSt (addDirSt st1 (dirname local_path)) local_path new_content
          if 0 < total_size ∧ new_content.length ≠ total_size then Except.ok (false, st2)
          else Except.ok (true, st2)
    | GetOutcome.respMidFail status content_length written =>
      if 400 ≤ status then Except.ok (false, cleanup_zero st1 local_path)
      else
        let mode_append := resume && (status == 206)
        if env.mkdirFail (dirname local_path) = true then Except.error OsError.mkdirFail
        else if env.writeFail local_path = true then Except.error OsError.writeFail
        else
          let old := (lookup st1.fs.files local_path).getD []
          let new_content := if mode_append then old ++ written else written
          let st2 := setFileSt (addDirSt st1 (dirname local_path)) local_path new_content
          Except.ok (false, cleanup_zero st2 local_path)

/-- One iteration of `file_download_worker` (lines 336-352) on a dequeued
task: run `download_file`, then increment `downloaded_files` on `True` and
`failed_files` on `False`.  The loop body has no exception handler, so an
`OSError` escaping `download_file` propagates and kills the worker. -/
def file_download_worker_step (env : Env) (cfg : Config) (task : String × String) (st : St) :
    Except OsError St :=
  match download_file env cfg task.1 task.2 st with
  | Except.error e => Except.error e
  | Except.ok (true, st1) => Except.ok { st1 with downloaded_files := st1.downloaded_files + 1 }
  | Except.ok (false, st1) => Except.ok { st1 with failed_files := st1.failed_files + 1 }

/-- The workers' consumption of the whole queue (the counter updates are
lock-protected in the source, so the aggregate effect is this fold). -/
def run_tasks (env : Env) (cfg : Config) : List (String × String) → St → Except OsError St
  | [], st => Except.ok st
  | t :: ts, st =>
    match file_download_worker_step env cfg t st with
    | Except.error e => Except.error e
    | Except.ok st1 => run_tasks env cfg ts st1

/-- Embeds `get_absolute_url` (lines 92-94): `urljoin(base, u)` returns `u`
unchanged whenever `u` is itself absolute, and the crawl only ever joins
absolute URLs (the normalized directory URL with a child name appended). -/
def get_absolute_url (u : String) : String := u

/-- Python's `os.path.join` for a relative second component. -/
def path_join (a b : String) : String := a ++ "/" ++ b

/-- The per-file body of `process_directory`'s file loop (lines 372-380):
count the discovered file and enqueue its download task. -/
def enqueue_file (url1 lp : String) (st : St) (file : String) : St :=
  { st with
    total_files := st.total_files + 1,
    file_queue := st.file_queue ++ [(get_absolute_url (url1 ++ file), path_join lp file)] }

/-- The body of `process_directory` (lines 354-386), parametrized by the
recursive call used on subdirectories.  Note the source order: the
*unnormalized* URL is tested against and added to `processed_urls` first,
and only then is the trailing slash appended. -/
def process_directory_body (env : Env) (recur : St → String → String → St)
    (st : St) (url lp : String) : St :=
  if url ∈ st.processed_urls then st
  else
    let st1 := { st with processed_urls := url :: st.processed_urls }
    let url1 := if ends_with_slash url then url else url ++ "/"
    let st2 := addDirSt st1 lp
    let links := env.extract url1
    let st3 := links.1.foldl (enqueue_file url1 lp) st2
    links.2.foldl (fun s d => recur s (get_absolute_url (url1 ++ d)) (path_join lp d)) st3

/-- Embeds `process_directory`; `fuel` bounds the recursion depth (the
Python recursion is bounded only by the visited set). -/
def process_directory (env : Env) : Nat → St → String → String → St
  | 0, st, _, _ => st
  | fuel+1, st, url, lp => process_directory_body env (process_directory env fuel) st url lp

/-- The value returned by `start` (line 453): `downloaded_files > 0`. -/
def start_result (st : St) : Bool := decide (0 < st.downloaded_files)

/-- The exit-status derivation at the end of `main` (lines 515-522):
`sys.exit(1)` when `start` returned falsy and no files were downloaded,
`sys.exit(2)` when some files failed, and a normal exit (status 0)
otherwise. -/
def main_exit_code (st : St) : Nat :=
  if start_result st = false ∧ st.downloaded_files = 0 then 1
  else if 0 < st.failed_files then 2
  else 0

/-- Empty filesystem. -/
def emptyFS : FileSys := { files := [], dirs := [] }

/-- Initial run state: all counters zero, nothing visited or queued. -/
def emptySt : St :=
  { downloaded_files := 0, skipped_files := 0, failed_files := 0, total_files := 0,
    processed_urls := [], file_queue := [], fs := emptyFS }

/-- A neutral environment for concrete instantiations. -/
def baseEnv : Env :=
  { head := fun _ => none
    get := fun _ => GetOutcome.netFail
    extract := fun _ => ([], [])
    sha256 := fun _ => []
    md5 := fun _ => []
    mtime := fun _ => 0
    mkdirFail := fun _ => false
    writeFail := fun _ => false }

/-- Configuration `--existing skip` with no freshness flags (the default). -/
def cfgSkip : Config :=
  { update_only := false, use_checksum := false, existing_action := ExistingAction.skip }

/-- Configuration `--existing overwrite` with no freshness flags. -/
def cfgOverwrite : Config :=
  { update_only := false, use_checksum := false, existing_action := ExistingAction.overwrite }

/-- Configuration `--existing overwrite --checksum`. -/
def cfgChecksum : Config :=
  { update_only := false, use_checksum := true, existing_action := ExistingAction.overwrite }

/-- Configuration `--existing overwrite --update`. -/
def cfgUpdate : Config :=
  { update_only := true, use_checksum := false, existing_action := ExistingAction.overwrite }

/-- A server with one directory listing: `http://h/d/` contains the single
file `a.txt`. -/
def envC5 : Env :=
  { baseEnv with
      extract := fun u => if u = "http://h/d/" then (["a.txt"], []) else ([], []) }

/-- Reading a freshly written file returns what was written. -/
theorem lookup_setFileSt_self (st : St) (p : String) (c : List Nat) :
    lookup (setFileSt st p c).fs.files p = some c := by
  simp [setFileSt, lookup]

/-- Writing one file leaves every other path unchanged. -/
theorem lookup_setFileSt_other (st : St) (p q : String) (c : List Nat) (h : q ≠ p) :
    lookup (setFileSt st p c).fs.files q = lookup st.fs.files q := by
  simp [setFileSt, lookup, Ne.symm h]

/-- Auxiliary: a removed binding is gone from the association list. -/
theorem lookup_filter_self (p : String) :
    ∀ l : List (String × List Nat), lookup (l.filter (fun kv => kv.1 != p)) p = none := by
  intro l
  induction l with
  | nil => rfl
  | cons kv rest ih =>
    by_cases h : kv.1 = p
    · simp [List.filter_cons, h, ih]
    · simp [List.filter_cons, h, lookup, ih]

/-- A deleted file is gone. -/
theorem lookup_removeFileSt_self (st : St) (p : String) :
    lookup (removeFileSt st p).fs.files p = none := by
  simp [removeFileSt, lookup_filter_self]

/-- Creating a directory does not change any file. -/
theorem lookup_addDirSt (st : St) (d p : String) :
    lookup (addDirSt st d).fs.files p = lookup st.fs.files p := by
  simp [addDirSt]

/-- Hex rendering produces two characters per byte. -/
theorem hexOfBytes_length : ∀ bs : List Nat, (hexOfBytes bs).length = 2 * bs.length := by
  intro bs
  induction bs with
  | nil => rfl
  | cons b bs ih =>
    simp only [hexOfBytes, String.length_append, ih]
    simp [String.length]
    ring

/-- C1: the claim says a skipped task increments only the skipped counter,
but in the code `download_file` increments `skipped_files` and then returns
`True` (line 274), whereupon the worker counts the same task once more as a
download (line 348): a skipped task increments both `skipped_files` and
`downloaded_files` by one. -/
theorem worker_counts_skipped_task_twice (env : Env) (cfg : Config) (u p : String)
    (st : St) (c : List Nat)
    (hfile : lookup st.fs.files p = some c)
    (hcfg : cfg.existing_action = ExistingAction.skip) :
    file_download_worker_step env cfg (u, p) st =
      Except.ok { st with skipped_files := st.skipped_files + 1,
                          downloaded_files := st.downloaded_files + 1 } := by
  simp [file_download_worker_step, download_file, should_skip_existing, hfile, hcfg]

/-- Witness: a concrete task with an existing local file under the default
skip policy is counted both as skipped and as downloaded. -/
theorem worker_counts_skipped_task_twice_witness :
    file_download_worker_step baseEnv cfgSkip ("http://h/f", "out/f")
        (setFileSt emptySt "out/f" [7]) =
      Except.ok { setFileSt emptySt "out/f" [7] with
                    skipped_files := 1, downloaded_files := 1 } :=
  worker_counts_skipped_task_twice baseEnv cfgSkip "http://h/f" "out/f"
    (setFileSt emptySt "out/f" [7]) [7] (by rfl) rfl

/-- C2: a run whose single attempted task is skipped (existing local file,
default skip policy) exits with status 0, not with the hard-failure status
1 the claim demands for zero transferred files: the skipped task also
incremented `downloaded_files`, so `main`'s `downloaded_files == 0` test
fails and the success path is taken. -/
theorem all_skipped_run_exits_zero :
    (run_tasks baseEnv cfgSkip [("http://h/f", "out/f")]
        (setFileSt emptySt "out/f" [7])).map
        (fun s => (main_exit_code s, s.downloaded_files, s.skipped_files, s.failed_files)) =
      Except.ok (0, 1, 1, 0) := by
  rfl

/-- C7: precedence of `should_skip_existing` (lines 238-266): a missing
local file always proceeds; with an existing file, policy backup snapshots
and proceeds, policy skip skips unconditionally (whatever the freshness
flags say), and only policy overwrite consults the optional probes — no
flags means proceed, `--checksum` defers to `is_file_changed`, and
`--update` alone defers to `is_file_updated`. -/
theorem should_skip_existing_precedence (env : Env) (cfg : Config) (u p : String) (st : St) :
    (lookup st.fs.files p = none → should_skip_existing env cfg u p st = (false, st))
    ∧ (lookup st.fs.files p ≠ none → cfg.existing_action = ExistingAction.backup →
        should_skip_existing env cfg u p st = (false, backup_file st p))
    ∧ (lookup st.fs.files p ≠ none → cfg.existing_action = ExistingAction.skip →
        should_skip_existing env cfg u p st = (true, st))
    ∧ (lookup st.fs.files p ≠ none → cfg.existing_action = ExistingAction.overwrite →
        cfg.update_only = false → cfg.use_checksum = false →
        should_skip_existing env cfg u p st = (false, st))
    ∧ (lookup st.fs.files p ≠ none → cfg.existing_action = ExistingAction.overwrite →
        cfg.use_checksum = true →
        should_skip_existing env cfg u p st =
          (!(is_file_changed env u p st).1, (is_file_changed env u p st).2))
    ∧ (lookup st.fs.files p ≠ none → cfg.existing_action = ExistingAction.overwrite →
        cfg.use_checksum = false → cfg.update_only = true →
        should_skip_existing env cfg u p st = (!is_file_updated env u p, st)) := by
  refine ⟨?_, ?_, ?_, ?_, ?_, ?_⟩
  · intro h; simp [should_skip_existing, h]
  · intro h hb; simp [should_skip_existing, h, hb]
  · intro h hs; simp [should_skip_existing, h, hs]
  · intro h ho hu hc; simp [should_skip_existing, h, ho, hu, hc]
  · intro h ho hc
    simp only [should_skip_existing, h, ho, hc, if_neg, Bool.or_true, if_true]
    cases hch : (is_file_changed env u p st).1 <;> simp [hch]
  · intro h ho hc hu
    simp only [should_skip_existing, h, ho, hc, hu]
    cases hup : is_file_updated env u p <;> simp [hup]

/-- Witness: the skip policy skips a concrete existing file even with the
checksum flag set, overwrite with no flags proceeds, and a missing local
file proceeds under the skip policy. -/
theorem should_skip_existing_precedence_witness :
    should_skip_existing baseEnv
        { update_only := false, use_checksum := true, existing_action := ExistingAction.skip }
        "u" "p" (setFileSt emptySt "p" [1]) = (true, setFileSt emptySt "p" [1])
    ∧ should_skip_existing baseEnv cfgOverwrite "u" "p" (setFileSt emptySt "p" [1]) =
        (false, setFileSt emptySt "p" [1])
    ∧ should_skip_existing baseEnv cfgSkip "u" "p" emptySt = (false, emptySt) :=
  ⟨(should_skip_existing_precedence baseEnv
        { update_only := false, use_checksum := true, existing_action := ExistingAction.skip }
        "u" "p" (setFileSt emptySt "p" [1])).2.2.1
      (by simp [lookup_setFileSt_self]) rfl,
   (should_skip_existing_precedence baseEnv cfgOverwrite "u" "p"
        (setFileSt emptySt "p" [1])).2.2.2.1
      (by simp [lookup_setFileSt_self]) rfl rfl rfl,
   (should_skip_existing_precedence baseEnv cfgSkip "u" "p" emptySt).1 rfl⟩

/-- C8: `is_file_updated` (lines 141-163) proceeds exactly when the
server's `Last-Modified` exceeds the local modification time by strictly
more than 1 second; a missing `Last-Modified` header, or a probe that
fails, always yields Proceed (`true`), never a skip. -/
theorem is_file_updated_spec (env : Env) (u p : String) :
    (∀ r t, env.head u = some r → r.lastModified = some t →
        (is_file_updated env u p = true ↔ t - env.mtime p > 1))
    ∧ (∀ r, env.head u = some r → r.lastModified = none → is_file_updated env u p = true)
    ∧ (env.head u = none → is_file_updated env u p = true) := by
  refine ⟨?_, ?_, ?_⟩
  · intro r t hr ht; simp [is_file_updated, hr, ht]
  · intro r hr ht; simp [is_file_updated, hr, ht]
  · intro h; simp [is_file_updated, h]

/-- Witness: a remote timestamp of 10 seconds against a local modification
time of 0 makes `is_file_updated` proceed. -/
theorem is_file_updated_spec_witness :
    is_file_updated
      { baseEnv with
          head := fun _ => some { lastModified := some 10, etag := none, contentMD5 := none } }
      "u" "p" = true :=
  ((is_file_updated_spec
      { baseEnv with
          head := fun _ => some { lastModified := some 10, etag := none, contentMD5 := none } }
      "u" "p").1 _ 10 rfl rfl).mpr (by norm_num [baseEnv])

/-- C3: the claim says the `Content-MD5` fallback reports the file
unchanged exactly when the local bytes match the declared checksum; in the
code the comparison is between the *SHA-256* hex digest of the local file
(64 characters, `get_file_checksum`, line 167) and the hex of the decoded
MD5 header (32 characters, line 211), which are never equal — so even a
local file whose MD5 digest matches the declared checksum is reported
changed and re-downloaded. -/
theorem md5_branch_reports_changed_despite_match (env : Env) (u p m : String)
    (lm : Option Rat) (c : List Nat) (st : St)
    (hhead : env.head u = some { lastModified := lm, etag := none, contentMD5 := some m })
    (hm : m ≠ "")
    (hfile : lookup st.fs.files p = some c)
    (hsha : (env.sha256 c).length = 32)
    (hmd5len : (b64decode m).length = 16)
    (hmatch : hexOfBytes (env.md5 c) = hexOfBytes (b64decode m)) :
    is_file_changed env u p st = (true, st) := by
  have h1 : (hexOfBytes (env.sha256 c)).length = 64 := by rw [hexOfBytes_length, hsha]
  have h2 : (hexOfBytes (b64decode m)).length = 32 := by rw [hexOfBytes_length, hmd5len]
  have hne : hexOfBytes (env.sha256 c) ≠ hexOfBytes (b64decode m) := by
    intro he
    rw [he, h2] at h1
    exact absurd h1 (by norm_num)
  simp [is_file_changed, hhead, get_file_checksum, hfile, hm, hne]

/-- Witness: an empty local file against a server declaring the matching
`Content-MD5` of the empty content is still reported as changed. -/
theorem md5_branch_reports_changed_despite_match_witness :
    is_file_changed
      { baseEnv with
          head := fun _ => some
            { lastModified := none, etag := none,
              contentMD5 := some "1B2M2Y8AsgTpgAmY7PhCfg==" }
          sha256 := fun _ => List.replicate 32 0
          md5 := fun _ =>
            [212, 29, 140, 217, 143, 0, 178, 4, 233, 128, 9, 152, 236, 248, 66, 126] }
      "u" "p" (setFileSt emptySt "p" []) = (true, setFileSt emptySt "p" []) :=
  md5_branch_reports_changed_despite_match
    { baseEnv with
        head := fun _ => some
          { lastModified := none, etag := none,
            contentMD5 := some "1B2M2Y8AsgTpgAmY7PhCfg==" }
        sha256 := fun _ => List.replicate 32 0
        md5 := fun _ =>
          [212, 29, 140, 217, 143, 0, 178, 4, 233, 128, 9, 152, 236, 248, 66, 126] }
    "u" "p" "1B2M2Y8AsgTpgAmY7PhCfg==" none [] (setFileSt emptySt "p" [])
    rfl (by decide) (by rfl) (by simp) (by rfl) (by rfl)

/-- C4: the claim says a transfer whose resume request is answered with a
full-content response succeeds whenever the on-disk size equals the
declared `Content-Length`; in the code the expected size is computed as
`Content-Length + file_size` regardless of whether the 206 append path was
taken (line 305), so a 200 response after a nonzero local file is
truncated and fully rewritten to exactly `Content-Length` bytes and yet
the size verification fails and the transfer returns `False`. -/
theorem unhonored_resume_fails_size_check (env : Env) (cfg : Config) (u p : String)
    (st : St) (c body : List Nat) (L : Nat)
    (ho : cfg.existing_action = ExistingAction.overwrite)
    (hu : cfg.update_only = false) (hc : cfg.use_checksum = false)
    (hfile : lookup st.fs.files p = some c) (hne : c ≠ [])
    (hget : env.get u = GetOutcome.resp 200 (some L) body)
    (hbody : body.length = L)
    (hmk : env.mkdirFail (dirname p) = false)
    (hwr : env.writeFail p = false) :
    download_file env cfg u p st =
      Except.ok (false, setFileSt (addDirSt st (dirname p)) p body)
    ∧ lookup (setFileSt (addDirSt st (dirname p)) p body).fs.files p = some body := by
  have hskip : should_skip_existing env cfg u p st = (false, st) := by
    simp [should_skip_existing, hfile, ho, hu, hc]
  have hclen : 0 < c.length := List.length_pos.mpr hne
  have hpos : 0 < L + c.length := by omega
  have hmis : body.length ≠ L + c.length := by omega
  refine ⟨?_, lookup_setFileSt_self _ _ _⟩
  simp [download_file, hskip, hget, hfile, hclen, hmk, hwr, hpos, hmis]

/-- Witness: a 1-byte local file, a 200 response with `Content-Length` 2
and a 2-byte body: the file is rewritten to exactly 2 bytes yet the
transfer is reported failed. -/
theorem unhonored_resume_fails_size_check_witness :
    download_file
      { baseEnv with get := fun _ => GetOutcome.resp 200 (some 2) [5, 6] }
      cfgOverwrite "u" "d/p" (setFileSt emptySt "d/p" [9]) =
      Except.ok (false,
        setFileSt (addDirSt (setFileSt emptySt "d/p" [9]) (dirname "d/p")) "d/p" [5, 6])
    ∧ lookup
        (setFileSt (addDirSt (setFileSt emptySt "d/p" [9]) (dirname "d/p"))
          "d/p" [5, 6]).fs.files "d/p" = some [5, 6] :=
  unhonored_resume_fails_size_check
    { baseEnv with get := fun _ => GetOutcome.resp 200 (some 2) [5, 6] }
    cfgOverwrite "u" "d/p" (setFileSt emptySt "d/p" [9]) [9] [5, 6] 2
    rfl rfl rfl (by rfl) (by decide) rfl (by decide) rfl rfl

/-- C6: the claim says a filesystem error during directory creation or the
file write is counted as a failed task and the worker continues; in the
code only `requests.exceptions.RequestException` is caught (line 329), so
an `OSError` from `open`/`write` escapes `download_file` and the worker
loop (which has no handler, lines 338-352): no counter is incremented and
the worker thread crashes. -/
theorem os_error_escapes_worker (env : Env) (cfg : Config) (u p : String) (st : St)
    (s : Nat) (cl : Option Nat) (body : List Nat)
    (hfile : lookup st.fs.files p = none)
    (hget : env.get u = GetOutcome.resp s cl body)
    (hs : s < 400)
    (hmk : env.mkdirFail (dirname p) = false)
    (hwr : env.writeFail p = true) :
    file_download_worker_step env cfg (u, p) st = Except.error OsError.writeFail := by
  have hskip : should_skip_existing env cfg u p st = (false, st) := by
    simp [should_skip_existing, hfile]
  have hs4 : ¬ 400 ≤ s := by omega
  simp [file_download_worker_step, download_file, hskip, hget, hs4, hmk, hwr, hfile]

/-- Witness: a task whose file write raises (for example, disk full) makes
the worker step end in an uncaught `OSError` instead of a counted failure. -/
theorem os_error_escapes_worker_witness :
    file_download_worker_step
      { baseEnv with
          get := fun _ => GetOutcome.resp 200 (some 1) [1]
          writeFail := fun _ => true }
      cfgSkip ("u", "d/p") emptySt = Except.error OsError.writeFail :=
  os_error_escapes_worker
    { baseEnv with
        get := fun _ => GetOutcome.resp 200 (some 1) [1]
        writeFail := fun _ => true }
    cfgSkip "u" "d/p" emptySt 200 (some 1) [1] rfl rfl (by decide) rfl rfl

/-- C9: on a transport-level failure `download_file` returns `False` with
the `except` clause's cleanup applied (lines 329-334): a local file present
with exactly zero bytes is deleted, a nonzero-length file is left exactly
as it is; a mid-stream failure first leaves the written prefix on disk and
then applies the same cleanup. -/
theorem transfer_failure_cleanup :
    (∀ (env : Env) (cfg : Config) (u p : String) (st st1 : St),
        should_skip_existing env cfg u p st = (false, st1) →
        env.get u = GetOutcome.netFail →
        download_file env cfg u p st = Except.ok (false, cleanup_zero st1 p))
    ∧ (∀ (st : St) (p : String), lookup st.fs.files p = some [] →
        lookup (cleanup_zero st p).fs.files p = none)
    ∧ (∀ (st : St) (p : String) (c : List Nat), lookup st.fs.files p = some c → c ≠ [] →
        cleanup_zero st p = st)
    ∧ (∀ (env : Env) (cfg : Config) (u p : String) (st st1 : St) (s : Nat)
          (cl : Option Nat) (w : List Nat),
        should_skip_existing env cfg u p st = (false, st1) →
        lookup st1.fs.files p = none →
        env.get u = GetOutcome.respMidFail s cl w →
        s < 400 →
        env.mkdirFail (dirname p) = false →
        env.writeFail p = false →
        download_file env cfg u p st =
          Except.ok (false, cleanup_zero (setFileSt (addDirSt st1 (dirname p)) p w) p)) := by
  refine ⟨?_, ?_, ?_, ?_⟩
  · intro env cfg u p st st1 hskip hget
    simp [download_file, hskip, hget]
  · intro st p h
    simp [cleanup_zero, h, lookup_removeFileSt_self]
  · intro st p c h hne
    cases c with
    | nil => exact absurd rfl hne
    | cons b bs => simp [cleanup_zero, h]
  · intro env cfg u p st st1 s cl w hskip hfile hget hs hmk hwr
    have hs4 : ¬ 400 ≤ s := by omega
    simp [download_file, hskip, hget, hs4, hmk, hwr, hfile]

/-- Witness: with a transport failure, a pre-existing zero-byte local file
is removed and the transfer reports failure. -/
theorem transfer_failure_cleanup_witness :
    download_file baseEnv cfgOverwrite "u" "p" (setFileSt emptySt "p" []) =
      Except.ok (false, cleanup_zero (setFileSt emptySt "p" []) "p")
    ∧ lookup (cleanup_zero (setFileSt emptySt "p" []) "p").fs.files "p" = none :=
  ⟨transfer_failure_cleanup.1 baseEnv cfgOverwrite "u" "p"
      (setFileSt emptySt "p" []) (setFileSt emptySt "p" []) (by rfl) rfl,
   transfer_failure_cleanup.2.1 (setFileSt emptySt "p" []) "p" (by rfl)⟩

/-- One step of `process_directory`'s recursion on fuel. -/
theorem process_directory_succ (env : Env) (n : Nat) (st : St) (url lp : String) :
    process_directory env (n + 1) st url lp =
      process_directory_body env (process_directory env n) st url lp := rfl

/-- Enqueuing the files of a listing does not touch the visited set. -/
theorem foldl_enqueue_processed (url1 lp : String) :
    ∀ (files : List String) (st : St),
      (files.foldl (enqueue_file url1 lp) st).processed_urls = st.processed_urls := by
  intro files
  induction files with
  | nil => intro st; rfl
  | cons f fs ih => intro st; rw [List.foldl_cons, ih]; rfl

/-- Recursing into subdirectories preserves visited-set membership, given
that each recursive call does. -/
theorem mem_processed_foldl_dirs (env : Env) (fuel : Nat)
    (H : ∀ (st : St) (url lp x : String), x ∈ st.processed_urls →
        x ∈ (process_directory env fuel st url lp).processed_urls) :
    ∀ (ds : List String) (st : St) (url1 lp x : String),
      x ∈ st.processed_urls →
      x ∈ (ds.foldl
            (fun s d =>
              process_directory env fuel s (get_absolute_url (url1 ++ d)) (path_join lp d))
            st).processed_urls := by
  intro ds
  induction ds with
  | nil => intro st url1 lp x h; exact h
  | cons d ds ih => intro st url1 lp x h; exact ih _ _ _ _ (H _ _ _ _ h)

/-- A crawl never removes anything from the visited set. -/
theorem mem_processed_process_directory (env : Env) :
    ∀ (fuel : Nat) (st : St) (url lp x : String),
      x ∈ st.processed_urls → x ∈ (process_directory env fuel st url lp).processed_urls := by
  intro fuel
  induction fuel with
  | zero => intro st url lp x h; exact h
  | succ fuel ih =>
    intro st url lp x h
    by_cases hmem : url ∈ st.processed_urls
    · simpa [process_directory_succ, process_directory_body, hmem] using h
    · rw [process_directory_succ]
      unfold process_directory_body
      rw [if_neg hmem]
      apply mem_processed_foldl_dirs env fuel ih
      simp [foldl_enqueue_processed, addDirSt, h]

/-- After a (non-trivially-fueled) call, the exact URL that was passed is
in the visited set. -/
theorem self_mem_processed_process_directory (env : Env) (fuel : Nat) (st : St)
    (url lp : String) :
    url ∈ (process_directory env (fuel + 1) st url lp).processed_urls := by
  by_cases hmem : url ∈ st.processed_urls
  · simp [process_directory_succ, process_directory_body, hmem]
  · rw [process_directory_succ]
    unfold process_directory_body
    rw [if_neg hmem]
    apply mem_processed_foldl_dirs env fuel (mem_processed_process_directory env fuel)
    simp [foldl_enqueue_processed, addDirSt]

/-- C5 counterexample: within one run, `process_directory` on
`http://h/d` and then on `http://h/d/` expands the same directory twice —
the visited set received the URL before slash normalization (line 359
before lines 362-363), so the slash variant is not recognized — and its
single child file is enqueued as a download task twice; the second
invocation is not a no-op. -/
theorem process_directory_slash_variant_revisited :
    (process_directory envC5 1
        (process_directory envC5 1 emptySt "http://h/d" "out") "http://h/d/" "out").file_queue =
      [("http://h/d/a.txt", "out/a.txt"), ("http://h/d/a.txt", "out/a.txt")]
    ∧ process_directory envC5 1
        (process_directory envC5 1 emptySt "http://h/d" "out") "http://h/d/" "out" ≠
      process_directory envC5 1 emptySt "http://h/d" "out" := by
  exact ⟨rfl, by decide⟩

/-- C5 amended: `process_directory` records the URL exactly as passed
(before slash normalization) in the visited set before expanding, so a
second invocation within one run with the *identical* URL string is a
no-op: the directory is listed at most once and its child files are
enqueued at most once for that string.  (Slash variants of the same
directory are treated as distinct, see the counterexample.) -/
theorem process_directory_exact_url_idempotent (env : Env) (fuel : Nat) (st : St)
    (url lp : String) :
    process_directory env fuel (process_directory env fuel st url lp) url lp =
      process_directory env fuel st url lp := by
  cases fuel with
  | zero => rfl
  | succ n =>
    have hmem := self_mem_processed_process_directory env n st url lp
    conv_lhs => rw [process_directory_succ]
    unfold process_directory_body
    rw [if_pos hmem]

/-- C10: with change-by-content checking, whenever the server's ETag fails
the sidecar comparison of line 195 — because no sidecar record exists yet
*or* because the stored sidecar value differs from the new tag (the
hypothesis `hmiss` is exactly that comparison evaluating to false) — the
fresh ETag is persisted to the `.etag` sidecar during the freshness
decision itself (lines 199-201), before any transfer is attempted: when
the subsequent download fails, the sidecar already holds the new tag while
the stale local file is untouched, and a later change-by-content
evaluation of the same file finds matching tags, reports it unchanged and
skips it. -/
theorem etag_persisted_before_transfer_masks_failure (env : Env) (cfg : Config)
    (u p e : String) (r : HeadResp) (c : List Nat) (st : St)
    (hhead : env.head u = some r)
    (retag : r.etag = some e)
    (he : e ≠ "")
    (htrim : pyStrip (strOfBytes (bytesOfStr e)) = e)
    (hcfg : cfg.use_checksum = true)
    (hcfg2 : cfg.existing_action = ExistingAction.overwrite)
    (hfile : lookup st.fs.files p = some c)
    (hc : c ≠ [])
    (hmiss : etag_matches
        ((lookup st.fs.files (p ++ ".etag")).map (fun bs => pyStrip (strOfBytes bs))) e =
      false)
    (hwf : env.writeFail (p ++ ".etag") = false)
    (hget : env.get u = GetOutcome.netFail)
    (hne : p ++ ".etag" ≠ p) :
    is_file_changed env u p st = (true, setFileSt st (p ++ ".etag") (bytesOfStr e))
    ∧ download_file env cfg u p st =
        Except.ok (false, setFileSt st (p ++ ".etag") (bytesOfStr e))
    ∧ lookup (setFileSt st (p ++ ".etag") (bytesOfStr e)).fs.files (p ++ ".etag") =
        some (bytesOfStr e)
    ∧ lookup (setFileSt st (p ++ ".etag") (bytesOfStr e)).fs.files p = some c
    ∧ should_skip_existing env cfg u p (setFileSt st (p ++ ".etag") (bytesOfStr e)) =
        (true, setFileSt st (p ++ ".etag") (bytesOfStr e)) := by
  have hlookE : lookup (setFileSt st (p ++ ".etag") (bytesOfStr e)).fs.files p = some c := by
    rw [lookup_setFileSt_other st (p ++ ".etag") p (bytesOfStr e) (Ne.symm hne)]
    exact hfile
  have hchanged : is_file_changed env u p st =
      (true, setFileSt st (p ++ ".etag") (bytesOfStr e)) := by
    simp [is_file_changed, hhead, retag, he, hmiss, hwf]
  have hskip1 : should_skip_existing env cfg u p st =
      (false, setFileSt st (p ++ ".etag") (bytesOfStr e)) := by
    simp [should_skip_existing, hfile, hcfg, hcfg2, hchanged]
  have hcz : cleanup_zero (setFileSt st (p ++ ".etag") (bytesOfStr e)) p =
      setFileSt st (p ++ ".etag") (bytesOfStr e) := by
    cases c with
    | nil => exact absurd rfl hc
    | cons b bs => simp [cleanup_zero, hlookE]
  have hdl : download_file env cfg u p st =
      Except.ok (false, setFileSt st (p ++ ".etag") (bytesOfStr e)) := by
    simp [download_file, hskip1, hget, hcz]
  have hchanged2 : is_file_changed env u p (setFileSt st (p ++ ".etag") (bytesOfStr e)) =
      (false, setFileSt st (p ++ ".etag") (bytesOfStr e)) := by
    simp [is_file_changed, hhead, retag, he, lookup_setFileSt_self, etag_matches, htrim]
  have hskip2 : should_skip_existing env cfg u p (setFileSt st (p ++ ".etag") (bytesOfStr e)) =
      (true, setFileSt st (p ++ ".etag") (bytesOfStr e)) := by
    simp [should_skip_existing, hlookE, hcfg, hcfg2, hchanged2]
  exact ⟨hchanged, hdl, lookup_setFileSt_self _ _ _, hlookE, hskip2⟩

/-- Witness for both triggers: a stale 1-byte local file, a new ETag
`abc`, and a download that fails.  With no sidecar record yet, and
likewise with a sidecar holding the differing value `old`, the sidecar
ends up holding `abc` and the next change-by-content decision skips the
still-stale file. -/
theorem etag_persisted_before_transfer_masks_failure_witness :
    download_file
      { baseEnv with
          head := fun _ => some { lastModified := none, etag := some "abc", contentMD5 := none } }
      cfgChecksum "u" "f" (setFileSt emptySt "f" [1]) =
      Except.ok (false,
        setFileSt (setFileSt emptySt "f" [1]) ("f" ++ ".etag") (bytesOfStr "abc"))
    ∧ should_skip_existing
        { baseEnv with
            head := fun _ => some { lastModified := none, etag := some "abc", contentMD5 := none } }
        cfgChecksum "u" "f"
        (setFileSt (setFileSt emptySt "f" [1]) ("f" ++ ".etag") (bytesOfStr "abc")) =
      (true, setFileSt (setFileSt emptySt "f" [1]) ("f" ++ ".etag") (bytesOfStr "abc"))
    ∧ download_file
        { baseEnv with
            head := fun _ => some { lastModified := none, etag := some "abc", contentMD5 := none } }
        cfgChecksum "u" "f"
        (setFileSt (setFileSt emptySt "f" [1]) ("f" ++ ".etag") (bytesOfStr "old")) =
      Except.ok (false,
        setFileSt (setFileSt (setFileSt emptySt "f" [1]) ("f" ++ ".etag") (bytesOfStr "old"))
          ("f" ++ ".etag") (bytesOfStr "abc"))
    ∧ should_skip_existing
        { baseEnv with
            head := fun _ => some { lastModified := none, etag := some "abc", contentMD5 := none } }
        cfgChecksum "u" "f"
        (setFileSt (setFileSt (setFileSt emptySt "f" [1]) ("f" ++ ".etag") (bytesOfStr "old"))
          ("f" ++ ".etag") (bytesOfStr "abc")) =
      (true,
        setFileSt (setFileSt (setFileSt emptySt "f" [1]) ("f" ++ ".etag") (bytesOfStr "old"))
          ("f" ++ ".etag") (bytesOfStr "abc")) :=
  ⟨(etag_persisted_before_transfer_masks_failure
      { baseEnv with
          head := fun _ => some { lastModified := none, etag := some "abc", contentMD5 := none } }
      cfgChecksum "u" "f" "abc"
      { lastModified := none, etag := some "abc", contentMD5 := none } [1]
      (setFileSt emptySt "f" [1])
      rfl rfl (by decide) (by decide) rfl rfl (by rfl) (by decide) (by decide) rfl rfl
      (by decide)).2.1,
   (etag_persisted_before_transfer_masks_failure
      { baseEnv with
          head := fun _ => some { lastModified := none, etag := some "abc", contentMD5 := none } }
      cfgChecksum "u" "f" "abc"
      { lastModified := none, etag := some "abc", contentMD5 := none } [1]
      (setFileSt emptySt "f" [1])
      rfl rfl (by decide) (by decide) rfl rfl (by rfl) (by decide) (by decide) rfl rfl
      (by decide)).2.2.2.2,
   (etag_persisted_before_transfer_masks_failure
      { baseEnv with
          head := fun _ => some { lastModified := none, etag := some "abc", contentMD5 := none } }
      cfgChecksum "u" "f" "abc"
      { lastModified := none, etag := some "abc", contentMD5 := none } [1]
      (setFileSt (setFileSt emptySt "f" [1]) ("f" ++ ".etag") (bytesOfStr "old"))
      rfl rfl (by decide) (by decide) rfl rfl (by decide) (by decide) (by decide) rfl rfl
      (by decide)).2.1,
   (etag_persisted_before_transfer_masks_failure
      { baseEnv with
          head := fun _ => some { lastModified := none, etag := some "abc", contentMD5 := none } }
      cfgChecksum "u" "f" "abc"
      { lastModified := none, etag := some "abc", contentMD5 := none } [1]
      (setFileSt (setFileSt emptySt "f" [1]) ("f" ++ ".etag") (bytesOfStr "old"))
      rfl rfl (by decide) (by decide) rfl rfl (by decide) (by decide) (by decide) rfl rfl
      (by decide)).2.2.2.2⟩

end HttpIndexDownloader
